import Mathlib

/-!
Verification development for the `terraform-gotemplate` provider
(`src/pkg/go_datasource_file.go`).

The Go file wires the Terraform schema to `renderGoTemplate`, which
 - resolves the `template` attribute as a path or inline content
   (`pathorcontents.Read`),
 - parses it as a Go `text/template` named "main" with the helper
   functions of `templateFuncs`,
 - if `snippits` is non-empty, lists the directory and parses every
   entry as an additional template fragment (`tmpl.ParseFiles`),
 - executes template "main" against the `vars` map into a buffer,
and `dataSourceFileRead`, which stores the rendered text and
`hash(rendered)` (hex-encoded SHA-256) on success.

The embedding below models the file system as finite maps, and models the
fragment of the `text/template` engine exercised by this provider: literal
text, a field action, helper-function calls with field/literal
arguments, if/else/end, define/end and template invocation.  The
delimiters are the usual double braces; spaces separate the words of an
action.  Execution carries a fuel bound modelling the engine's
maximum execution depth; error strings abbreviate the engine's messages.
-/

/-- Values flowing through template execution.  Terraform's `TypeMap`
delivers `vars` as string-valued entries; helper functions also produce
booleans and string sequences, and a missing map key yields the
"no value" result. -/
inductive Value
  | vStr (s : String)
  | vBool (b : Bool)
  | vList (xs : List String)
  | vNil
deriving DecidableEq

/-- The `vars` map (`map[string]interface{}` filled from `TypeMap`). -/
abbrev Vars := List (String × Value)

/-- Status of a path in the modelled file system. -/
inductive FileStat
  | absent
  | unreadable
  | content (s : String)

/-- The file system consulted by the renderer: file contents per path, and
directory listings per path (`none` when `ioutil.ReadDir` would fail,
otherwise the entry names in the order the listing returns them). -/
structure FS where
  files : String → FileStat
  dirs : String → Option (List String)

/-- The error values `renderGoTemplate` can return, one constructor per
return site in the Go code (each site returns the collaborator's error
unchanged). -/
inductive RenderError
  | readError (path : String)
  | parseError (msg : String)
  | dirError (path : String)
  | snippetReadError (path : String)
  | snippetParseError (file : String) (msg : String)
  | execError (msg : String)
deriving DecidableEq

/-- `pathorcontents.Read`: an existing readable file yields its contents, a
missing path yields the string itself, an unreadable file yields the read
error. -/
def pathorcontentsRead (fs : FS) (poc : String) : Except RenderError String :=
  match fs.files poc with
  | FileStat.content s => Except.ok s
  | FileStat.unreadable => Except.error (RenderError.readError poc)
  | FileStat.absent => Except.ok poc

/-- A lexed template item: literal text, or the body of one action. -/
inductive Item
  | text (s : String)
  | action (s : String)

/-- An operand of an action: a field reference `.name` or a quoted
string literal. -/
inductive Operand
  | field (n : String)
  | lit (s : String)

/-- An action expression: a single operand, or a helper-function call
applied to operands. -/
inductive Expr
  | op (o : Operand)
  | call (fn : String) (args : List Operand)

/-- The classified form of one action. -/
inductive TmplAct
  | aIf (e : Expr)
  | aElse
  | aEnd
  | aDefine (name : String)
  | aTemplate (name : String)
  | aExpr (e : Expr)

/-- A parsed template node. -/
inductive Node
  | text (s : String)
  | action (e : Expr)
  | cond (e : Expr) (thn els : List Node)
  | define (name : String) (body : List Node)
  | tmplRef (name : String)

/-- Leading literal text of a character stream, up to the first opening
action delimiter; returns the rest of the stream past the delimiter when
one occurs. -/
def textUntilOpen : List Char → List Char × Option (List Char)
  | [] => ([], none)
  | [c] => ([c], none)
  | c1 :: c2 :: rest =>
    if c1 == '{' && c2 == '{' then ([], some rest)
    else
      match textUntilOpen (c2 :: rest) with
      | (txt, r) => (c1 :: txt, r)

/-- Body of an action, up to the closing delimiter; `none` when the
action is never closed. -/
def actionUntilClose : List Char → Option (List Char × List Char)
  | [] => none
  | [_] => none
  | c1 :: c2 :: rest =>
    if c1 == '}' && c2 == '}' then some ([], rest)
    else
      match actionUntilClose (c2 :: rest) with
      | none => none
      | some (act, r) => some (c1 :: act, r)

/-- True when the character stream holds no opening action delimiter, i.e.
the template has no placeholders or control directives. -/
def noOpen : List Char → Bool
  | [] => true
  | [_] => true
  | c1 :: c2 :: rest => !(c1 == '{' && c2 == '{') && noOpen (c2 :: rest)

/-- Fueled lexer: alternating text and action items. -/
def lexChars : Nat → List Char → Except String (List Item)
  | 0, _ => Except.error "lexer fuel exhausted"
  | fuel + 1, cs =>
    match textUntilOpen cs with
    | (txt, none) => Except.ok [Item.text txt.asString]
    | (txt, some rest) =>
      match actionUntilClose rest with
      | none => Except.error "unclosed action"
      | some (act, rest2) =>
        match lexChars fuel rest2 with
        | Except.error m => Except.error m
        | Except.ok items => Except.ok (Item.text txt.asString :: Item.action act.asString :: items)

/-- Lex a template source string. -/
def lexString (s : String) : Except String (List Item) :=
  lexChars (s.data.length + 1) s.data

/-- Split an action body into its space-separated words. -/
def splitWordsAux (acc : List Char) : List Char → List (List Char)
  | [] => if acc.isEmpty then [] else [acc.reverse]
  | c :: rest =>
    if c == ' ' then
      if acc.isEmpty then splitWordsAux [] rest
      else acc.reverse :: splitWordsAux [] rest
    else splitWordsAux (c :: acc) rest

/-- The space-separated words of an action body. -/
def splitWords (cs : List Char) : List String :=
  (splitWordsAux [] cs).map List.asString

/-- Strip the surrounding quotes of a template name argument. -/
def unquote (w : String) : Except String String :=
  match w.data with
  | '"' :: rest =>
    match rest.reverse with
    | '"' :: mid => Except.ok mid.reverse.asString
    | _ => Except.error ("bad template name " ++ w)
  | _ => Except.error ("bad template name " ++ w)

/-- Parse one operand word. -/
def parseOperand (w : String) : Except String Operand :=
  match w.data with
  | '.' :: rest => Except.ok (Operand.field rest.asString)
  | '"' :: _ =>
    match unquote w with
    | Except.error m => Except.error m
    | Except.ok s => Except.ok (Operand.lit s)
  | _ => Except.error ("bad operand " ++ w)

/-- Parse a list of operand words. -/
def parseOperands : List String → Except String (List Operand)
  | [] => Except.ok []
  | w :: ws =>
    match parseOperand w with
    | Except.error m => Except.error m
    | Except.ok o =>
      match parseOperands ws with
      | Except.error m => Except.error m
      | Except.ok os => Except.ok (o :: os)

/-- Parse the words of an action into an expression; like the engine, a
function name must be registered at parse time. -/
def parseExpr (funcNames : List String) : List String → Except String Expr
  | [] => Except.error "missing value for command"
  | [w] =>
    match w.data with
    | '.' :: _ =>
      match parseOperand w with
      | Except.error m => Except.error m
      | Except.ok o => Except.ok (Expr.op o)
    | '"' :: _ =>
      match parseOperand w with
      | Except.error m => Except.error m
      | Except.ok o => Except.ok (Expr.op o)
    | _ =>
      if funcNames.contains w then Except.ok (Expr.call w [])
      else Except.error ("function " ++ w ++ " not defined")
  | f :: args =>
    if funcNames.contains f then
      match parseOperands args with
      | Except.error m => Except.error m
      | Except.ok os => Except.ok (Expr.call f os)
    else Except.error ("function " ++ f ++ " not defined")

/-- Classify one action body. -/
def parseAction (funcNames : List String) (s : String) : Except String TmplAct :=
  match splitWords s.data with
  | ["else"] => Except.ok TmplAct.aElse
  | ["end"] => Except.ok TmplAct.aEnd
  | "if" :: rest =>
    match parseExpr funcNames rest with
    | Except.error m => Except.error m
    | Except.ok e => Except.ok (TmplAct.aIf e)
  | ["define", q] =>
    match unquote q with
    | Except.error m => Except.error m
    | Except.ok n => Except.ok (TmplAct.aDefine n)
  | ["template", q] =>
    match unquote q with
    | Except.error m => Except.error m
    | Except.ok n => Except.ok (TmplAct.aTemplate n)
  | ws =>
    match parseExpr funcNames ws with
    | Except.error m => Except.error m
    | Except.ok e => Except.ok (TmplAct.aExpr e)

/-- Why a run of `parseNodes` stopped. -/
inductive Stop
  | eof
  | stopElse
  | stopEnd

/-- Fueled structure parser: turns items into nodes, stopping at
`else`/`end`; `top` is false inside a construct, where `define` is
rejected as the engine rejects it. -/
def parseNodes (funcNames : List String) : Nat → Bool → List Item → Except String (List Node × Stop × List Item)
  | 0, _, _ => Except.error "parser fuel exhausted"
  | _ + 1, _, [] => Except.ok ([], Stop.eof, [])
  | fuel + 1, top, Item.text s :: rest =>
    match parseNodes funcNames fuel top rest with
    | Except.error m => Except.error m
    | Except.ok (ns, st, r) => Except.ok (Node.text s :: ns, st, r)
  | fuel + 1, top, Item.action a :: rest =>
    match parseAction funcNames a with
    | Except.error m => Except.error m
    | Except.ok TmplAct.aElse => Except.ok ([], Stop.stopElse, rest)
    | Except.ok TmplAct.aEnd => Except.ok ([], Stop.stopEnd, rest)
    | Except.ok (TmplAct.aIf e) =>
      match parseNodes funcNames fuel false rest with
      | Except.error m => Except.error m
      | Except.ok (_, Stop.eof, _) => Except.error "unexpected EOF in if"
      | Except.ok (thn, Stop.stopEnd, r) =>
        match parseNodes funcNames fuel top r with
        | Except.error m => Except.error m
        | Except.ok (ns, st, r2) => Except.ok (Node.cond e thn [] :: ns, st, r2)
      | Except.ok (thn, Stop.stopElse, r) =>
        match parseNodes funcNames fuel false r with
        | Except.error m => Except.error m
        | Except.ok (els, Stop.stopEnd, r2) =>
          match parseNodes funcNames fuel top r2 with
          | Except.error m => Except.error m
          | Except.ok (ns, st, r3) => Except.ok (Node.cond e thn els :: ns, st, r3)
        | Except.ok (_, _, _) => Except.error "expected end after else"
    | Except.ok (TmplAct.aDefine n) =>
      if top then
        match parseNodes funcNames fuel false rest with
        | Except.error m => Except.error m
        | Except.ok (body, Stop.stopEnd, r) =>
          match parseNodes funcNames fuel top r with
          | Except.error m => Except.error m
          | Except.ok (ns, st, r2) => Except.ok (Node.define n body :: ns, st, r2)
        | Except.ok (_, _, _) => Except.error "unterminated define"
      else Except.error "unexpected define"
    | Except.ok (TmplAct.aTemplate n) =>
      match parseNodes funcNames fuel top rest with
      | Except.error m => Except.error m
      | Except.ok (ns, st, r) => Except.ok (Node.tmplRef n :: ns, st, r)
    | Except.ok (TmplAct.aExpr e) =>
      match parseNodes funcNames fuel top rest with
      | Except.error m => Except.error m
      | Except.ok (ns, st, r) => Except.ok (Node.action e :: ns, st, r)

/-- Separate the top-level `define` blocks of a parsed template from its
own body. -/
def extractDefines : List Node → List (String × List Node) × List Node
  | [] => ([], [])
  | Node.define n b :: rest =>
    match extractDefines rest with
    | (ds, ns) => ((n, b) :: ds, ns)
  | n :: rest =>
    match extractDefines rest with
    | (ds, ns) => (ds, n :: ns)

/-- Parse one template source under a given name; the result lists the
template's own definition first, then its `define` blocks, in document
order (later definitions of a name replace earlier ones when merged). -/
def parseOne (funcNames : List String) (name : String) (src : String) : Except String (List (String × List Node)) :=
  match lexString src with
  | Except.error m => Except.error m
  | Except.ok items =>
    match parseNodes funcNames (items.length + 1) true items with
    | Except.error m => Except.error m
    | Except.ok (nodes, Stop.eof, _) =>
      match extractDefines nodes with
      | (defs, body) => Except.ok ((name, body) :: defs)
    | Except.ok (_, _, _) => Except.error "unexpected end or else at top level"

/-- `strings.ToUpper` / `strings.ToLower` / `strings.Split` /
`strings.Join` on the modelled values.  `goSplit` follows `strings.Split`,
whose empty separator explodes the string. -/
def goSplit (s sep : String) : List String :=
  if sep = "" then s.data.map (fun c => String.mk [c]) else s.splitOn sep

/-- The `upper` helper of `templateFuncs`. -/
def upperFn : List Value → Except String Value
  | [Value.vStr s] => Except.ok (Value.vStr s.toUpper)
  | _ => Except.error "wrong argument for upper"

/-- The `lower` helper of `templateFuncs`. -/
def lowerFn : List Value → Except String Value
  | [Value.vStr s] => Except.ok (Value.vStr s.toLower)
  | _ => Except.error "wrong argument for lower"

/-- The `split` helper of `templateFuncs`. -/
def splitFn : List Value → Except String Value
  | [Value.vStr s, Value.vStr sep] => Except.ok (Value.vList (goSplit s sep))
  | _ => Except.error "wrong argument for split"

/-- The `join` helper of `templateFuncs`. -/
def joinFn : List Value → Except String Value
  | [Value.vList xs, Value.vStr sep] => Except.ok (Value.vStr (String.intercalate sep xs))
  | _ => Except.error "wrong argument for join"

/-- The `empty` helper of `templateFuncs`. -/
def emptyFn : List Value → Except String Value
  | [Value.vStr s] => Except.ok (Value.vBool (s == ""))
  | _ => Except.error "wrong argument for empty"

/-- Modelled from the spec: the renderer revision whose helper table holds
the boolean coercion helper `is_true` is not under `src` (only its test
file is).  Per the spec it recognizes exactly the literal tokens "1",
"true" and "True" as true, and returns false for every other string. -/
def is_true (s : String) : Bool :=
  s == "1" || s == "true" || s == "True"

/-- The `is_true` helper as a template function (see `is_true`). -/
def isTrueFn : List Value → Except String Value
  | [Value.vStr s] => Except.ok (Value.vBool (is_true s))
  | _ => Except.error "wrong argument for is_true"

/-- The helper-function table. -/
abbrev FuncMap := String → Option (List Value → Except String Value)

/-- `templateFuncs`: the five helpers of the source's table
(`upper`, `lower`, `split`, `join`, `empty`) together with the
spec-modelled `is_true` (see `is_true`). -/
def templateFuncs : FuncMap := fun name =>
  if name = "upper" then some upperFn
  else if name = "lower" then some lowerFn
  else if name = "split" then some splitFn
  else if name = "join" then some joinFn
  else if name = "empty" then some emptyFn
  else if name = "is_true" then some isTrueFn
  else none

/-- The registered function names, as checked at parse time. -/
def builtinFuncNames : List String :=
  ["upper", "lower", "split", "join", "empty", "is_true"]

/-- Truth of a value in an `if` action, per the engine: empty string,
empty sequence, false and the missing value are false. -/
def truthVal : Value → Bool
  | Value.vStr s => !(s == "")
  | Value.vBool b => b
  | Value.vList xs => !xs.isEmpty
  | Value.vNil => false

/-- Printing of a value by an output action. -/
def printVal : Value → String
  | Value.vStr s => s
  | Value.vBool b => if b then "true" else "false"
  | Value.vList xs => "[" ++ String.intercalate " " xs ++ "]"
  | Value.vNil => "<no value>"

/-- Evaluate one operand; the data is `none` inside a fragment invoked
without an argument, where a field reference fails as in the engine. -/
def evalOperand (vars : Option Vars) : Operand → Except String Value
  | Operand.lit s => Except.ok (Value.vStr s)
  | Operand.field n =>
    match vars with
    | none => Except.error ("nil data; no entry for key " ++ n)
    | some m => Except.ok ((m.lookup n).getD Value.vNil)

/-- Evaluate a list of operands. -/
def evalOperands (vars : Option Vars) : List Operand → Except String (List Value)
  | [] => Except.ok []
  | o :: os =>
    match evalOperand vars o with
    | Except.error m => Except.error m
    | Except.ok v =>
      match evalOperands vars os with
      | Except.error m => Except.error m
      | Except.ok vs => Except.ok (v :: vs)

/-- Evaluate an expression. -/
def evalExpr (funcs : FuncMap) (vars : Option Vars) : Expr → Except String Value
  | Expr.op o => evalOperand vars o
  | Expr.call fn args =>
    match evalOperands vars args with
    | Except.error m => Except.error m
    | Except.ok vs =>
      match funcs fn with
      | none => Except.error ("function " ++ fn ++ " not defined")
      | some f => f vs

/-- The template namespace: name to body. -/
abbrev NS := String → Option (List Node)

/-- Execute a node list; the fuel models the engine's bounded execution
depth (`maxExecDepth`). -/
def execNodes (funcs : FuncMap) (ns : NS) (fuel : Nat) (vars : Option Vars) (nodes : List Node) : Except String String :=
  match nodes, fuel with
  | [], _ => Except.ok ""
  | _ :: _, 0 => Except.error "exceeded maximum execution depth"
  | Node.text s :: rest, fuel + 1 =>
    match execNodes funcs ns fuel vars rest with
    | Except.error m => Except.error m
    | Except.ok r => Except.ok (s ++ r)
  | Node.action e :: rest, fuel + 1 =>
    match evalExpr funcs vars e with
    | Except.error m => Except.error m
    | Except.ok v =>
      match execNodes funcs ns fuel vars rest with
      | Except.error m => Except.error m
      | Except.ok r => Except.ok (printVal v ++ r)
  | Node.cond e thn els :: rest, fuel + 1 =>
    match evalExpr funcs vars e with
    | Except.error m => Except.error m
    | Except.ok v =>
      match execNodes funcs ns fuel vars (if truthVal v then thn else els) with
      | Except.error m => Except.error m
      | Except.ok b =>
        match execNodes funcs ns fuel vars rest with
        | Except.error m => Except.error m
        | Except.ok r => Except.ok (b ++ r)
  | Node.define _ _ :: rest, fuel + 1 => execNodes funcs ns fuel vars rest
  | Node.tmplRef n :: rest, fuel + 1 =>
    match ns n with
    | none => Except.error ("template " ++ n ++ " not defined")
    | some body =>
      match execNodes funcs ns fuel none body with
      | Except.error m => Except.error m
      | Except.ok b =>
        match execNodes funcs ns fuel vars rest with
        | Except.error m => Except.error m
        | Except.ok r => Except.ok (b ++ r)

/-- The engine's maximum execution depth. -/
def maxExecDepth : Nat := 100000

/-- `ExecuteTemplate`: look the name up in the namespace and run its
body against the variable map. -/
def execTemplate (ns : NS) (name : String) (vars : Vars) : Except String String :=
  match ns name with
  | none => Except.error ("template " ++ name ++ " not defined")
  | some body => execNodes templateFuncs ns maxExecDepth (some vars) body

/-- Associate one definition, replacing any previous holder of the name. -/
def insertDef (ns : NS) (p : String × List Node) : NS :=
  fun n => if n = p.1 then some p.2 else ns n

/-- The empty namespace. -/
def emptyNS : NS := fun _ => none

/-- Build the namespace from a definition list, in order. -/
def buildNS (defs : List (String × List Node)) : NS :=
  defs.foldl insertDef emptyNS

/-- `strings.TrimRight(s, "/")`. -/
def trimTrailingSlashes (s : String) : String :=
  String.mk (List.reverse (List.dropWhile (fun c => c == '/') s.data.reverse))

/-- `tmpl.ParseFiles` over the listed snippet entries: read and parse each
file in order, the file's base name naming its own template. -/
def loadSnippetFiles (funcNames : List String) (fs : FS) (dir : String) : List String → Except RenderError (List (String × List Node))
  | [] => Except.ok []
  | name :: rest =>
    match fs.files (trimTrailingSlashes dir ++ "/" ++ name) with
    | FileStat.content c =>
      match parseOne funcNames name c with
      | Except.error m => Except.error (RenderError.snippetParseError name m)
      | Except.ok defs =>
        match loadSnippetFiles funcNames fs dir rest with
        | Except.error e => Except.error e
        | Except.ok more => Except.ok (defs ++ more)
    | _ => Except.error (RenderError.snippetReadError (trimTrailingSlashes dir ++ "/" ++ name))

/-- The snippet step of `renderGoTemplate`: nothing when the `snippits`
attribute is empty, otherwise the directory listing (failing like
`ioutil.ReadDir` on a missing directory) with every entry parsed. -/
def loadSnippets (funcNames : List String) (fs : FS) (snippitsPath : String) : Except RenderError (List (String × List Node)) :=
  if snippitsPath = "" then Except.ok []
  else
    match fs.dirs snippitsPath with
    | none => Except.error (RenderError.dirError snippitsPath)
    | some names => loadSnippetFiles funcNames fs snippitsPath names

/-- The number of snippet fragments the renderer loads for a given
`snippits` attribute: the directory's entry count. -/
def snippetCount (fs : FS) (snippitsPath : String) : Nat :=
  if snippitsPath = "" then 0 else ((fs.dirs snippitsPath).getD []).length

/-- The state of the data source (`*schema.ResourceData`): the three input
attributes, the computed `rendered` attribute and the resource id. -/
structure ResourceData where
  template : String
  snippits : String
  vars : Vars
  rendered : Option String
  id : Option String

/-- The pipeline of `renderGoTemplate` after the template source has been
resolved to text: parse it as "main", load the snippets, execute. -/
def renderResolved (fs : FS) (content snippitsPath : String) (vars : Vars) : String × Option RenderError :=
  match parseOne builtinFuncNames "main" content with
  | Except.error msg => ("", some (RenderError.parseError msg))
  | Except.ok mainDefs =>
    match loadSnippets builtinFuncNames fs snippitsPath with
    | Except.error e => ("", some e)
    | Except.ok snippetDefs =>
      match execTemplate (buildNS (mainDefs ++ snippetDefs)) "main" vars with
      | Except.error msg => ("", some (RenderError.execError msg))
      | Except.ok out => (out, none)

/-- `renderGoTemplate`: resolve the `template` attribute, then render;
every failure returns the empty string with the error. -/
def renderGoTemplate (fs : FS) (d : ResourceData) : String × Option RenderError :=
  match pathorcontentsRead fs d.template with
  | Except.error e => ("", some e)
  | Except.ok content => renderResolved fs content d.snippits d.vars

/-- Mask to 32 bits. -/
def w32 (n : Nat) : Nat := n % 2 ^ 32

/-- 32-bit right rotation. -/
def rotr32 (k x : Nat) : Nat := w32 ((x >>> k) ||| (x <<< (32 - k)))

/-- SHA-256 choice function. -/
def shaCh (x y z : Nat) : Nat := (x &&& y) ^^^ ((x ^^^ 0xffffffff) &&& z)

/-- SHA-256 majority function. -/
def shaMaj (x y z : Nat) : Nat := (x &&& y) ^^^ (x &&& z) ^^^ (y &&& z)

/-- SHA-256 big sigma 0. -/
def bigSig0 (x : Nat) : Nat := rotr32 2 x ^^^ rotr32 13 x ^^^ rotr32 22 x

/-- SHA-256 big sigma 1. -/
def bigSig1 (x : Nat) : Nat := rotr32 6 x ^^^ rotr32 11 x ^^^ rotr32 25 x

/-- SHA-256 small sigma 0. -/
def smallSig0 (x : Nat) : Nat := rotr32 7 x ^^^ rotr32 18 x ^^^ (x >>> 3)

/-- SHA-256 small sigma 1. -/
def smallSig1 (x : Nat) : Nat := rotr32 17 x ^^^ rotr32 19 x ^^^ (x >>> 10)

/-- The SHA-256 round constants. -/
def shaK : List Nat :=
  [1116352408, 1899447441, 3049323471, 3921009573, 961987163, 1508970993,
   2453635748, 2870763221, 3624381080, 310598401, 607225278, 1426881987,
   1925078388, 2162078206, 2614888103, 3248222580, 3835390401, 4022224774,
   264347078, 604807628, 770255983, 1249150122, 1555081692, 1996064986,
   2554220882, 2821834349, 2952996808, 3210313671, 3336571891, 3584528711,
   113926993, 338241895, 666307205, 773529912, 1294757372, 1396182291,
   1695183700, 1986661051, 2177026350, 2456956037, 2730485921, 2820302411,
   3259730800, 3345764771, 3516065817, 3600352804, 4094571909, 275423344,
   430227734, 506948616, 659060556, 883997877, 958139571, 1322822218,
   1537002063, 1747873779, 1955562222, 2024104815, 2227730452, 2361852424,
   2428436474, 2756734187, 3204031479, 3329325298]

/-- The SHA-256 initial state. -/
def shaH0 : List Nat :=
  [1779033703, 3144134277, 1013904242, 2773480762,
   1359893119, 2600822924, 528734635, 1541459225]

/-- Big-endian bytes of a 64-bit length. -/
def be64 (n : Nat) : List Nat :=
  [n / 2 ^ 56 % 256, n / 2 ^ 48 % 256, n / 2 ^ 40 % 256, n / 2 ^ 32 % 256,
   n / 2 ^ 24 % 256, n / 2 ^ 16 % 256, n / 2 ^ 8 % 256, n % 256]

/-- SHA-256 padding: a 0x80 byte, zeros to 56 mod 64, and the bit length. -/
def padMessage (msg : List Nat) : List Nat :=
  msg ++ 0x80 :: List.replicate ((119 - msg.length % 64) % 64) 0 ++ be64 (msg.length * 8)

/-- Pack bytes into big-endian 32-bit words. -/
def bytesToWords : List Nat → List Nat
  | b0 :: b1 :: b2 :: b3 :: rest =>
    (b0 * 2 ^ 24 + b1 * 2 ^ 16 + b2 * 2 ^ 8 + b3) :: bytesToWords rest
  | _ => []

/-- Unpack one word into big-endian bytes. -/
def wordBytes (w : Nat) : List Nat :=
  [w / 2 ^ 24 % 256, w / 2 ^ 16 % 256, w / 2 ^ 8 % 256, w % 256]

/-- Extend the message schedule by the given number of words. -/
def extendSchedule : Nat → List Nat → List Nat
  | 0, w => w
  | n + 1, w =>
    extendSchedule n (w ++ [w32 (smallSig1 (w.getD (w.length - 2) 0) + w.getD (w.length - 7) 0
      + smallSig0 (w.getD (w.length - 15) 0) + w.getD (w.length - 16) 0)])

/-- The 64-word message schedule of a block. -/
def schedule (w16 : List Nat) : List Nat := extendSchedule 48 w16

/-- One SHA-256 compression round. -/
def roundStep (st : List Nat) (kw : Nat × Nat) : List Nat :=
  match st with
  | [a, b, c, d, e, f, g, h] =>
    let t1 := w32 (h + bigSig1 e + shaCh e f g + kw.1 + kw.2)
    let t2 := w32 (bigSig0 a + shaMaj a b c)
    [w32 (t1 + t2), a, b, c, w32 (d + t1), e, f, g]
  | st => st

/-- Compress one 64-byte block into the state. -/
def processBlock (st : List Nat) (block : List Nat) : List Nat :=
  let st2 := (shaK.zip (schedule (bytesToWords block))).foldl roundStep st
  (st.zip st2).map (fun p => w32 (p.1 + p.2))

/-- Split a byte list into 64-byte blocks. -/
def toBlocks : Nat → List Nat → List (List Nat)
  | 0, _ => []
  | _, [] => []
  | fuel + 1, bs => bs.take 64 :: toBlocks fuel (bs.drop 64)

/-- The SHA-256 digest bytes of a message. -/
def sha256Bytes (msg : List Nat) : List Nat :=
  let padded := padMessage msg
  (((toBlocks padded.length padded).foldl processBlock shaH0).map wordBytes).flatten

/-- One lowercase hex digit. -/
def hexDigitChar (n : Nat) : Char :=
  if n < 10 then Char.ofNat (48 + n) else Char.ofNat (87 + n)

/-- `hex.EncodeToString` over bytes. -/
def bytesToHex (bs : List Nat) : String :=
  String.mk ((bs.map (fun b => [hexDigitChar (b / 16), hexDigitChar (b % 16)])).flatten)

/-- `hash`: the hex-encoded SHA-256 digest of a string's UTF-8 bytes. -/
def hash (s : String) : String :=
  bytesToHex (sha256Bytes (s.toUTF8.data.toList.map UInt8.toNat))

/-- `dataSourceFileRead`: render; on failure return the error before any
state is written, on success store `rendered` and set the id to
`hash(rendered)`. -/
def dataSourceFileRead (fs : FS) (d : ResourceData) : ResourceData × Option RenderError :=
  match renderGoTemplate fs d with
  | (_, some e) => (d, some e)
  | (rendered, none) =>
    ({ d with rendered := some rendered, id := some (hash rendered) }, none)

/-! ### Concrete instances used by witnesses and counterexamples -/

/-- A file system with no files and no directories. -/
def fsEmpty : FS := ⟨fun _ => FileStat.absent, fun _ => none⟩

/-- A file system whose only path is an unreadable file. -/
def fsUnreadable : FS :=
  ⟨fun p => if p = "main.tmpl" then FileStat.unreadable else FileStat.absent, fun _ => none⟩

/-- A file system with a single empty directory. -/
def fsEmptyDir : FS :=
  ⟨fun _ => FileStat.absent, fun p => if p = "/empty" then some [] else none⟩

/-- The first template of the repository's `is_true` test case. -/
def c1T1 : String := "\x7b\x7b if is_true .enabled \x7d\x7dis_true\x7b\x7b end \x7d\x7d"

/-- The second template of the repository's `is_true` test case, with an
else clause. -/
def c1T2 : String :=
  "\x7b\x7b if is_true .enabled \x7d\x7dis_true\x7b\x7b else \x7d\x7dis_false\x7b\x7bend\x7d\x7d"

/-- The template of the repository's greeting test case. -/
def c8T : String := "Hello \x7b\x7b .name \x7d\x7d"

/-- A template whose execution fails by invoking an undefined fragment. -/
def c2T : String := "\x7b\x7b template \"missing\" \x7d\x7d"

/-- A template whose execution fails by passing the missing value to a
helper taking a string. -/
def c2Texec : String := "\x7b\x7b upper .name \x7d\x7d"

/-- A file system with two plain-text snippet files in one directory. -/
def c2fsSnip : FS :=
  ⟨fun p => if p = "/s/a.tmpl" then FileStat.content "A"
    else if p = "/s/b.tmpl" then FileStat.content "B"
    else FileStat.absent,
   fun p => if p = "/s" then some ["a.tmpl", "b.tmpl"] else none⟩

/-- Snippet files both defining the fragment name "frag" with different
bodies. -/
def c7files : String → FileStat := fun p =>
  if p = "/s/a.tmpl" then FileStat.content "\x7b\x7bdefine \"frag\"\x7d\x7dA\x7b\x7bend\x7d\x7d"
  else if p = "/s/b.tmpl" then FileStat.content "\x7b\x7bdefine \"frag\"\x7d\x7dB\x7b\x7bend\x7d\x7d"
  else FileStat.absent

/-- The colliding snippet set listed in one order. -/
def c7fs1 : FS := ⟨c7files, fun p => if p = "/s" then some ["a.tmpl", "b.tmpl"] else none⟩

/-- The colliding snippet set listed in the other order. -/
def c7fs2 : FS := ⟨c7files, fun p => if p = "/s" then some ["b.tmpl", "a.tmpl"] else none⟩

/-- A base template invoking the fragment "frag". -/
def c7T : String := "\x7b\x7b template \"frag\" \x7d\x7d"

/-- Snippet files with pairwise distinct definition names. -/
def c7wFiles : String → FileStat := fun p =>
  if p = "/w/x.tmpl" then FileStat.content "\x7b\x7bdefine \"fragx\"\x7d\x7dX\x7b\x7bend\x7d\x7d"
  else if p = "/w/y.tmpl" then FileStat.content "Y"
  else FileStat.absent

/-- The distinct-name snippet set listed in one order. -/
def c7wfs1 : FS := ⟨c7wFiles, fun p => if p = "/w" then some ["x.tmpl", "y.tmpl"] else none⟩

/-- The distinct-name snippet set listed in the other order. -/
def c7wfs2 : FS := ⟨c7wFiles, fun p => if p = "/w" then some ["y.tmpl", "x.tmpl"] else none⟩

/-- A base template invoking the fragment "fragx". -/
def c7wT : String := "\x7b\x7b template \"fragx\" \x7d\x7d"

/-! ### Helper lemmas -/

/-- A stream with no opening delimiter is consumed whole as text. -/
theorem textUntilOpen_of_noOpen : ∀ cs : List Char, noOpen cs = true → textUntilOpen cs = (cs, none) := by
  intro cs
  induction cs with
  | nil => intro _; rfl
  | cons c rest ih =>
    cases rest with
    | nil => intro _; rfl
    | cons c2 r2 =>
      intro h
      simp only [noOpen, Bool.and_eq_true, Bool.not_eq_true'] at h
      simp only [textUntilOpen, h.1]
      rw [ih h.2]
      rfl

/-- Inserting definitions with distinct names commutes. -/
theorem insertDef_comm (ns : NS) (p q : String × List Node) (hpq : p.1 ≠ q.1) :
    insertDef (insertDef ns p) q = insertDef (insertDef ns q) p := by
  funext n
  unfold insertDef
  by_cases h1 : n = q.1 <;> by_cases h2 : n = p.1
  · exact absurd (h2.symm.trans h1) hpq
  · rw [if_pos h1, if_neg h2, if_pos h1]
  · rw [if_neg h1, if_pos h2, if_pos h2]
  · rw [if_neg h1, if_neg h2, if_neg h2, if_neg h1]

/-- Folding a definition list with pairwise distinct names into a
namespace is invariant under permutation of the list. -/
theorem foldl_insertDef_perm : ∀ {l1 l2 : List (String × List Node)}, l1.Perm l2 →
    (l1.map Prod.fst).Nodup → ∀ ns : NS, l1.foldl insertDef ns = l2.foldl insertDef ns := by
  intro l1 l2 hperm
  induction hperm with
  | nil => intro _ _; rfl
  | cons x h ih =>
    intro hnd ns
    simp only [List.foldl_cons]
    refine ih ?_ (insertDef ns x)
    simp only [List.map_cons, List.nodup_cons] at hnd
    exact hnd.2
  | swap x y l =>
    intro hnd ns
    simp only [List.foldl_cons]
    have hxy : y.1 ≠ x.1 := by
      simp only [List.map_cons, List.nodup_cons, List.mem_cons] at hnd
      intro he
      exact hnd.1 (Or.inl he)
    rw [insertDef_comm ns y x hxy]
  | trans h12 h23 ih12 ih23 =>
    intro hnd ns
    rw [ih12 hnd ns, ih23 ((h12.map Prod.fst).nodup_iff.mp hnd) ns]

/-! ### Claims -/

/-- C4: `hash` is deterministic and a pure function of the rendered
output text: equal rendered texts always yield identical hex-string
identifiers, and the stored resource id depends on nothing but the
rendered text: two reads against any file systems and states whose
renders produce equal text store equal identifiers. -/
theorem C4_hash_deterministic :
    (∀ s1 s2 : String, s1 = s2 → (hash s1 : String) = (hash s2 : String)) ∧
    (∀ (fs1 fs2 : FS) (d1 d2 : ResourceData) (r1 r2 : String),
      renderGoTemplate fs1 d1 = (r1, none) → renderGoTemplate fs2 d2 = (r2, none) → r1 = r2 →
      (dataSourceFileRead fs1 d1).1.id = (dataSourceFileRead fs2 d2).1.id) := by
  constructor
  · intro s1 s2 h
    rw [h]
  · intro fs1 fs2 d1 d2 r1 r2 h1 h2 hr
    simp [dataSourceFileRead, h1, h2, hr]

theorem C4_hash_deterministic_witness : (hash "abc" : String) = (hash "abc" : String) :=
  C4_hash_deterministic.1 "abc" "abc" rfl

/-- C5: the renderer resolves the template source via the
path-or-contents rule: an unreadable file fails with the read error and
no rendered text, an existing file's contents are rendered, and a
non-path string is rendered as the template body itself. -/
theorem C5_source_resolution : ∀ (fs : FS) (d : ResourceData),
    (fs.files d.template = FileStat.unreadable →
      renderGoTemplate fs d = ("", some (RenderError.readError d.template))) ∧
    (∀ c, fs.files d.template = FileStat.content c →
      renderGoTemplate fs d = renderResolved fs c d.snippits d.vars) ∧
    (fs.files d.template = FileStat.absent →
      renderGoTemplate fs d = renderResolved fs d.template d.snippits d.vars) := by
  intro fs d
  refine ⟨fun h => ?_, fun c h => ?_, fun h => ?_⟩ <;>
    simp [renderGoTemplate, pathorcontentsRead, h]

theorem C5_source_resolution_witness :
    renderGoTemplate fsUnreadable ⟨"main.tmpl", "", [], none, none⟩ =
      ("", some (RenderError.readError "main.tmpl")) :=
  (C5_source_resolution fsUnreadable ⟨"main.tmpl", "", [], none, none⟩).1 rfl

/-- C9: on every failing path the renderer returns the empty string as
the rendered text together with the error; no partial output escapes. -/
theorem C9_no_partial_output : ∀ (fs : FS) (d : ResourceData),
    (renderGoTemplate fs d).2.isSome = true → (renderGoTemplate fs d).1 = "" := by
  intro fs d
  rcases hpc : pathorcontentsRead fs d.template with e | c
  · simp [renderGoTemplate, hpc]
  rcases hp : parseOne builtinFuncNames "main" c with m | mdefs
  · simp [renderGoTemplate, renderResolved, hpc, hp]
  rcases hl : loadSnippets builtinFuncNames fs d.snippits with e2 | sdefs
  · simp [renderGoTemplate, renderResolved, hpc, hp, hl]
  rcases he : execTemplate (buildNS (mdefs ++ sdefs)) "main" d.vars with m2 | out
  · simp [renderGoTemplate, renderResolved, hpc, hp, hl, he]
  · simp [renderGoTemplate, renderResolved, hpc, hp, hl, he]

theorem C9_no_partial_output_witness :
    (renderGoTemplate fsEmpty ⟨"\x7b\x7b", "", [], none, none⟩).1 = "" :=
  C9_no_partial_output fsEmpty ⟨"\x7b\x7b", "", [], none, none⟩ (by rfl)

/-- C10: the read callback writes no state on failure: the state is
returned unchanged together with the error, and only on success are the
rendered attribute and the id (the content hash) stored. -/
theorem C10_state_only_on_success : ∀ (fs : FS) (d : ResourceData),
    ((dataSourceFileRead fs d).2.isSome = true → (dataSourceFileRead fs d).1 = d) ∧
    ((dataSourceFileRead fs d).2 = none →
      (dataSourceFileRead fs d).1 =
        { d with rendered := some (renderGoTemplate fs d).1,
                 id := some (hash (renderGoTemplate fs d).1) }) := by
  intro fs d
  rcases h : renderGoTemplate fs d with ⟨out, err⟩
  unfold dataSourceFileRead
  rw [h]
  cases err <;> simp [h]

theorem C10_state_only_on_success_witness :
    (dataSourceFileRead fsEmpty ⟨"\x7b\x7b", "", [], none, none⟩).1 =
      (⟨"\x7b\x7b", "", [], none, none⟩ : ResourceData) :=
  (C10_state_only_on_success fsEmpty ⟨"\x7b\x7b", "", [], none, none⟩).1 (by rfl)

/-- C2 (counterexample): the error returned on an execution failure does
not report how many snippet fragments were loaded: a run that loaded no
fragment and a run that loaded two fragments fail with identical
errors. -/
theorem C2_fragment_count_counterexample :
    renderGoTemplate fsEmpty ⟨c2T, "", [], none, none⟩ =
      ("", some (RenderError.execError "template missing not defined")) ∧
    renderGoTemplate c2fsSnip ⟨c2T, "/s", [], none, none⟩ =
      ("", some (RenderError.execError "template missing not defined")) ∧
    snippetCount fsEmpty "" = 0 ∧
    snippetCount c2fsSnip "/s" = 2 ∧
    (renderGoTemplate fsEmpty ⟨c2T, "", [], none, none⟩).2 =
      (renderGoTemplate c2fsSnip ⟨c2T, "/s", [], none, none⟩).2 :=
  ⟨rfl, rfl, rfl, rfl, rfl⟩

/-- C2 (amended): when executing the base template fails, the renderer
returns the empty string together with the underlying execution error
unchanged; no wrapper and no fragment count is added. -/
theorem C2_execution_error_propagation : ∀ (fs : FS) (d : ResourceData) (c : String)
    (mdefs sdefs : List (String × List Node)) (msg : String),
    pathorcontentsRead fs d.template = Except.ok c →
    parseOne builtinFuncNames "main" c = Except.ok mdefs →
    loadSnippets builtinFuncNames fs d.snippits = Except.ok sdefs →
    execTemplate (buildNS (mdefs ++ sdefs)) "main" d.vars = Except.error msg →
    renderGoTemplate fs d = ("", some (RenderError.execError msg)) := by
  intro fs d c mdefs sdefs msg h1 h2 h3 h4
  simp [renderGoTemplate, renderResolved, h1, h2, h3, h4]

theorem C2_execution_error_propagation_witness :
    renderGoTemplate fsEmpty ⟨c2Texec, "", [], none, none⟩ =
      ("", some (RenderError.execError "wrong argument for upper")) :=
  C2_execution_error_propagation fsEmpty ⟨c2Texec, "", [], none, none⟩ c2Texec
    [("main", [Node.text "", Node.action (Expr.call "upper" [Operand.field "name"]), Node.text ""])]
    [] "wrong argument for upper" rfl rfl rfl rfl

/-- C3 (counterexample): with a snippets path naming a nonexistent
directory, a template that fails to parse yields the parse error, not a
DirectoryError: the snippet step runs only after the base template has
parsed. -/
theorem C3_dir_error_counterexample :
    renderGoTemplate fsEmpty ⟨"\x7b\x7b", "/nodir", [], none, none⟩ =
      ("", some (RenderError.parseError "unclosed action")) ∧
    fsEmpty.dirs "/nodir" = none ∧
    (renderGoTemplate fsEmpty ⟨"\x7b\x7b", "/nodir", [], none, none⟩).2 ≠
      some (RenderError.dirError "/nodir") :=
  ⟨rfl, rfl, by decide⟩

/-- C3 (amended): once the template source resolves and parses, a
snippets path naming a nonexistent directory fails with the directory
error; and a snippets path naming an existing empty directory yields
exactly the same result as an empty snippets path. -/
theorem C3_snippets_directory :
    (∀ (fs : FS) (d : ResourceData) (c : String) (mdefs : List (String × List Node)),
      pathorcontentsRead fs d.template = Except.ok c →
      parseOne builtinFuncNames "main" c = Except.ok mdefs →
      d.snippits ≠ "" → fs.dirs d.snippits = none →
      renderGoTemplate fs d = ("", some (RenderError.dirError d.snippits))) ∧
    (∀ (fs : FS) (d dz : ResourceData),
      d.template = dz.template → d.vars = dz.vars → dz.snippits = "" →
      fs.dirs d.snippits = some [] →
      renderGoTemplate fs d = renderGoTemplate fs dz) := by
  constructor
  · intro fs d c mdefs h1 h2 hsp hdir
    simp [renderGoTemplate, renderResolved, h1, h2, loadSnippets, hsp, hdir]
  · intro fs d dz ht hv hz hdir
    have hl1 : loadSnippets builtinFuncNames fs d.snippits = Except.ok [] := by
      by_cases hs : d.snippits = ""
      · simp [loadSnippets, hs]
      · simp [loadSnippets, hs, hdir, loadSnippetFiles]
    have hl2 : loadSnippets builtinFuncNames fs dz.snippits = Except.ok [] := by
      simp [loadSnippets, hz]
    unfold renderGoTemplate
    rw [ht]
    cases hpc : pathorcontentsRead fs dz.template with
    | error e => rfl
    | ok c =>
      unfold renderResolved
      simp only [hv, hl1, hl2]

theorem C3_snippets_directory_witness :
    renderGoTemplate fsEmpty ⟨"x", "/nodir2", [], none, none⟩ =
      ("", some (RenderError.dirError "/nodir2")) ∧
    renderGoTemplate fsEmptyDir ⟨"x", "/empty", [], none, none⟩ =
      renderGoTemplate fsEmptyDir ⟨"x", "", [], none, none⟩ :=
  ⟨C3_snippets_directory.1 fsEmpty ⟨"x", "/nodir2", [], none, none⟩ "x"
      [("main", [Node.text "x"])] rfl rfl (by decide) rfl,
    C3_snippets_directory.2 fsEmptyDir ⟨"x", "/empty", [], none, none⟩
      ⟨"x", "", [], none, none⟩ rfl rfl rfl rfl⟩

/-- C6: a template with no placeholders or control directives renders to
itself: with an empty snippets path and an empty variable map, the
renderer returns the template text unchanged. -/
theorem C6_no_placeholders : ∀ (s : String) (fs : FS),
    noOpen s.data = true → fs.files s = FileStat.absent →
    renderGoTemplate fs ⟨s, "", [], none, none⟩ = (s, none) := by
  intro s fs hno hfs
  have hlex : lexString s = Except.ok [Item.text s] := by
    unfold lexString
    simp only [lexChars]
    rw [textUntilOpen_of_noOpen s.data hno]
    rfl
  have hparse : parseOne builtinFuncNames "main" s = Except.ok [("main", [Node.text s])] := by
    unfold parseOne
    rw [hlex]
    rfl
  have hload : loadSnippets builtinFuncNames fs "" = Except.ok [] := rfl
  have hexec : execTemplate (buildNS ([("main", [Node.text s])] ++ [])) "main" [] = Except.ok s := by
    show execNodes templateFuncs (buildNS ([("main", [Node.text s])] ++ [])) maxExecDepth
      (some []) [Node.text s] = Except.ok s
    rw [show maxExecDepth = 99999 + 1 from rfl]
    simp only [execNodes]
    rw [String.append_empty]
  simp only [renderGoTemplate, pathorcontentsRead, hfs, renderResolved, hparse, hload, hexec]

theorem C6_no_placeholders_witness :
    renderGoTemplate fsEmpty ⟨"This is a template!", "", [], none, none⟩ =
      ("This is a template!", none) :=
  C6_no_placeholders "This is a template!" fsEmpty rfl rfl

/-- Executing the greeting body against a map binding "name" is the
greeting with the bound value substituted. -/
theorem execHelloBody : ∀ (f : Nat) (ns : NS) (m : Vars),
    m.lookup "name" = some (Value.vStr "rohith") →
    execNodes templateFuncs ns (f + 1 + 1 + 1) (some m)
      [Node.text "Hello ", Node.action (Expr.op (Operand.field "name")), Node.text ""] =
      Except.ok "Hello rohith" := by
  intro f ns m h
  simp only [execNodes, evalExpr, evalOperand]
  rw [h]
  rfl

/-- C8: rendering the inline greeting template with "name" bound to
"rohith" and no snippets yields exactly "Hello rohith". -/
theorem C8_hello_rohith : ∀ (fs : FS) (vars : Vars) (r0 i0 : Option String),
    fs.files c8T = FileStat.absent →
    vars.lookup "name" = some (Value.vStr "rohith") →
    renderGoTemplate fs ⟨c8T, "", vars, r0, i0⟩ = ("Hello rohith", none) := by
  intro fs vars r0 i0 hfs hv
  have hparse : parseOne builtinFuncNames "main" c8T =
      Except.ok [("main", [Node.text "Hello ", Node.action (Expr.op (Operand.field "name")), Node.text ""])] := rfl
  have hload : loadSnippets builtinFuncNames fs "" = Except.ok [] := rfl
  have hexec : execTemplate
      (buildNS ([("main", [Node.text "Hello ", Node.action (Expr.op (Operand.field "name")), Node.text ""])] ++ []))
      "main" vars = Except.ok "Hello rohith" := by
    show execNodes templateFuncs
      (buildNS ([("main", [Node.text "Hello ", Node.action (Expr.op (Operand.field "name")), Node.text ""])] ++ []))
      maxExecDepth (some vars)
      [Node.text "Hello ", Node.action (Expr.op (Operand.field "name")), Node.text ""] = Except.ok "Hello rohith"
    rw [show maxExecDepth = 99997 + 1 + 1 + 1 from rfl]
    exact execHelloBody 99997 _ vars hv
  simp only [renderGoTemplate, pathorcontentsRead, hfs, renderResolved, hparse, hload, hexec]

theorem C8_hello_rohith_witness :
    renderGoTemplate fsEmpty ⟨c8T, "", [("name", Value.vStr "rohith")], none, none⟩ =
      ("Hello rohith", none) :=
  C8_hello_rohith fsEmpty [("name", Value.vStr "rohith")] none none rfl rfl

/-- Executing the conditional body when "enabled" coerces to true takes
the then-branch. -/
theorem execIfTrueBody : ∀ (f : Nat) (ns : NS) (m : Vars) (els : List Node),
    m.lookup "enabled" = some (Value.vStr "true") →
    execNodes templateFuncs ns (f + 1 + 1 + 1) (some m)
      [Node.text "", Node.cond (Expr.call "is_true" [Operand.field "enabled"]) [Node.text "is_true"] els,
       Node.text ""] = Except.ok "is_true" := by
  intro f ns m els h
  simp only [execNodes, evalExpr, evalOperands, evalOperand]
  rw [h]
  simp [templateFuncs, isTrueFn, is_true, truthVal, printVal, execNodes]

/-- Executing the conditional body when "enabled" coerces to false takes
the else-branch. -/
theorem execIfFalseBody : ∀ (f : Nat) (ns : NS) (m : Vars) (thn : List Node),
    m.lookup "enabled" = some (Value.vStr "false") →
    execNodes templateFuncs ns (f + 1 + 1 + 1) (some m)
      [Node.text "", Node.cond (Expr.call "is_true" [Operand.field "enabled"]) thn [Node.text "is_false"],
       Node.text ""] = Except.ok "is_false" := by
  intro f ns m thn h
  simp only [execNodes, evalExpr, evalOperands, evalOperand]
  rw [h]
  simp [templateFuncs, isTrueFn, is_true, truthVal, printVal, execNodes]

/-- C1: with the boolean coercion helper available, the conditional
template renders the then-branch for every variable map binding
"enabled" to the true token, and the else-branch for every map binding
it to the false token (per the host, booleans arrive as the literal
strings "true" / "false").  The helper itself is the spec-modelled
`is_true`. -/
theorem C1_is_true_helper : ∀ (fs : FS) (vars1 vars2 : Vars) (r0 i0 : Option String),
    fs.files c1T1 = FileStat.absent → fs.files c1T2 = FileStat.absent →
    vars1.lookup "enabled" = some (Value.vStr "true") →
    vars2.lookup "enabled" = some (Value.vStr "false") →
    renderGoTemplate fs ⟨c1T1, "", vars1, r0, i0⟩ = ("is_true", none) ∧
    renderGoTemplate fs ⟨c1T2, "", vars2, r0, i0⟩ = ("is_false", none) := by
  intro fs vars1 vars2 r0 i0 h1 h2 hv1 hv2
  constructor
  · have hparse : parseOne builtinFuncNames "main" c1T1 =
        Except.ok [("main", [Node.text "",
          Node.cond (Expr.call "is_true" [Operand.field "enabled"]) [Node.text "is_true"] [],
          Node.text ""])] := rfl
    have hload : loadSnippets builtinFuncNames fs "" = Except.ok [] := rfl
    have hexec : execTemplate
        (buildNS ([("main", [Node.text "",
          Node.cond (Expr.call "is_true" [Operand.field "enabled"]) [Node.text "is_true"] [],
          Node.text ""])] ++ [])) "main" vars1 = Except.ok "is_true" := by
      show execNodes templateFuncs
        (buildNS ([("main", [Node.text "",
          Node.cond (Expr.call "is_true" [Operand.field "enabled"]) [Node.text "is_true"] [],
          Node.text ""])] ++ []))
        maxExecDepth (some vars1)
        [Node.text "",
         Node.cond (Expr.call "is_true" [Operand.field "enabled"]) [Node.text "is_true"] [],
         Node.text ""] = Except.ok "is_true"
      rw [show maxExecDepth = 99997 + 1 + 1 + 1 from rfl]
      exact execIfTrueBody 99997 _ vars1 [] hv1
    simp only [renderGoTemplate, pathorcontentsRead, h1, renderResolved, hparse, hload, hexec]
  · have hparse : parseOne builtinFuncNames "main" c1T2 =
        Except.ok [("main", [Node.text "",
          Node.cond (Expr.call "is_true" [Operand.field "enabled"]) [Node.text "is_true"] [Node.text "is_false"],
          Node.text ""])] := rfl
    have hload : loadSnippets builtinFuncNames fs "" = Except.ok [] := rfl
    have hexec : execTemplate
        (buildNS ([("main", [Node.text "",
          Node.cond (Expr.call "is_true" [Operand.field "enabled"]) [Node.text "is_true"] [Node.text "is_false"],
          Node.text ""])] ++ [])) "main" vars2 = Except.ok "is_false" := by
      show execNodes templateFuncs
        (buildNS ([("main", [Node.text "",
          Node.cond (Expr.call "is_true" [Operand.field "enabled"]) [Node.text "is_true"] [Node.text "is_false"],
          Node.text ""])] ++ []))
        maxExecDepth (some vars2)
        [Node.text "",
         Node.cond (Expr.call "is_true" [Operand.field "enabled"]) [Node.text "is_true"] [Node.text "is_false"],
         Node.text ""] = Except.ok "is_false"
      rw [show maxExecDepth = 99997 + 1 + 1 + 1 from rfl]
      exact execIfFalseBody 99997 _ vars2 [Node.text "is_true"] hv2
    simp only [renderGoTemplate, pathorcontentsRead, h2, renderResolved, hparse, hload, hexec]

theorem C1_is_true_helper_witness :
    renderGoTemplate fsEmpty ⟨c1T1, "", [("enabled", Value.vStr "true")], none, none⟩ =
      ("is_true", none) ∧
    renderGoTemplate fsEmpty ⟨c1T2, "", [("enabled", Value.vStr "false")], none, none⟩ =
      ("is_false", none) :=
  C1_is_true_helper fsEmpty [("enabled", Value.vStr "true")] [("enabled", Value.vStr "false")]
    none none rfl rfl rfl rfl

/-- C7 (counterexample): two snippet files defining the same fragment
name: the same fragment set merged in the two listing orders renders to
different outputs, although neither fragment redefines "main". -/
theorem C7_merge_order_counterexample :
    renderGoTemplate c7fs1 ⟨c7T, "/s", [], none, none⟩ = ("B", none) ∧
    renderGoTemplate c7fs2 ⟨c7T, "/s", [], none, none⟩ = ("A", none) ∧
    c7fs1.files = c7fs2.files ∧
    c7fs1.dirs "/s" = some ["a.tmpl", "b.tmpl"] ∧
    c7fs2.dirs "/s" = some ["b.tmpl", "a.tmpl"] :=
  ⟨rfl, rfl, rfl, rfl, rfl⟩

/-- C7 (amended): when the parsed snippet fragments define pairwise
distinct template names, the merge order does not affect the rendered
output: permuting the loaded definition set leaves the result of the
renderer unchanged. -/
theorem C7_merge_order : ∀ (fs1 fs2 : FS) (d1 d2 : ResourceData)
    (defs1 defs2 : List (String × List Node)),
    fs1.files = fs2.files → d1.template = d2.template → d1.vars = d2.vars →
    loadSnippets builtinFuncNames fs1 d1.snippits = Except.ok defs1 →
    loadSnippets builtinFuncNames fs2 d2.snippits = Except.ok defs2 →
    defs1.Perm defs2 → (defs1.map Prod.fst).Nodup →
    renderGoTemplate fs1 d1 = renderGoTemplate fs2 d2 := by
  intro fs1 fs2 d1 d2 defs1 defs2 hf ht hv h1 h2 hperm hnd
  have hpc : pathorcontentsRead fs1 d1.template = pathorcontentsRead fs2 d2.template := by
    unfold pathorcontentsRead
    rw [hf, ht]
  rcases hc : pathorcontentsRead fs2 d2.template with e | c
  · simp [renderGoTemplate, hpc, hc]
  rcases hp : parseOne builtinFuncNames "main" c with m | mdefs
  · simp [renderGoTemplate, renderResolved, hpc, hc, hp]
  have hb : buildNS (mdefs ++ defs1) = buildNS (mdefs ++ defs2) := by
    unfold buildNS
    rw [List.foldl_append, List.foldl_append]
    exact foldl_insertDef_perm hperm hnd _
  simp [renderGoTemplate, renderResolved, hpc, hc, hp, h1, h2, hb, hv]

theorem C7_merge_order_witness :
    renderGoTemplate c7wfs1 ⟨c7wT, "/w", [], none, none⟩ =
      renderGoTemplate c7wfs2 ⟨c7wT, "/w", [], none, none⟩ :=
  C7_merge_order c7wfs1 c7wfs2 ⟨c7wT, "/w", [], none, none⟩ ⟨c7wT, "/w", [], none, none⟩
    [("x.tmpl", [Node.text "", Node.text ""]), ("fragx", [Node.text "X"]), ("y.tmpl", [Node.text "Y"])]
    [("y.tmpl", [Node.text "Y"]), ("x.tmpl", [Node.text "", Node.text ""]), ("fragx", [Node.text "X"])]
    rfl rfl rfl rfl rfl
    (by exact (List.Perm.cons _ (List.Perm.swap _ _ _)).trans (List.Perm.swap _ _ [_]))
    (by decide)
